import Mathlib

/-
Shallow embedding of src/main.py (account-sync): a four-pass reconciliation
between a source roster of people (iPaaS "Dartmouth people") and a target
account directory (Planon).  Pure functions below are translated directly
from the Python source; remote effects (account creation, save calls,
raised exceptions) are modelled by explicit data and failure oracles.
-/

namespace AccountSync

/-- Python `s.lower()`: lowercase each character (`Char.toLower` per char). -/
def pyLower (s : String) : String := ⟨s.data.map Char.toLower⟩

/-- Python `sub in s`: substring containment test. -/
def pyContains (s sub : String) : Bool := decide (sub.data <:+: s.data)

/-- One record of `utils.get_people()` (src/main.py lines 65-68): the fields
the script reads are `netid`, `first_name`, `dartmouth_affiliation`, `name`. -/
structure DartPerson where
  netid : String
  first_name : String
  dartmouth_affiliation : String
  name : String
deriving DecidableEq

/-- One Planon account as the script sees it: `Accountname`, `Description`,
`BeginDate`, `EndDate` (absent means active), `PasswordNeverExpires`,
`Syscode` (opaque id used for links). -/
structure PlanonAccount where
  Accountname : String
  Description : String
  BeginDate : Option String
  EndDate : Option String
  PasswordNeverExpires : Bool
  Syscode : Nat
deriving DecidableEq

/-- One entry of `account_sync_excludes.json` (line 36-37): keyed by its
`account_name` field, used verbatim. -/
structure ExcludeEntry where
  account_name : String
deriving DecidableEq

/-- Keys of the `dart_people` dict (line 65): netids, used verbatim. -/
def dartKeys (people : List DartPerson) : Finset String :=
  (people.map DartPerson.netid).toFinset

/-- The filter of line 68: drop `nonperson`/`NONPERSON`/`NonPerson` first
names and `SERVICE` affiliations. -/
def keepPerson (p : DartPerson) : Bool :=
  (p.first_name != "nonperson" && p.first_name != "NONPERSON"
      && p.first_name != "NonPerson")
    && p.dartmouth_affiliation != "SERVICE"

/-- `dart_people_with_excludes` (line 68): the filtered eligible roster. -/
def dartPeopleWithExcludes (people : List DartPerson) : List DartPerson :=
  people.filter keepPerson

/-- Keys of a `planon_accounts` dict (lines 82, 184, 246): account names
lower-cased when the snapshot is built. -/
def planonKeys (accounts : List PlanonAccount) : Finset String :=
  (accounts.map (fun a => pyLower a.Accountname)).toFinset

/-- Keys of the `account_sync_excludes` dict (line 37): `account_name`
fields, used verbatim. -/
def excludeKeys (excludes : List ExcludeEntry) : Finset String :=
  (excludes.map ExcludeEntry.account_name).toFinset

/-- Line 96: `inserts = set(dart_people_with_excludes) - set(planon_accounts)`,
where `accounts` is the pre-insert target snapshot. -/
def inserts (people : List DartPerson) (accounts : List PlanonAccount) :
    Finset String :=
  dartKeys (dartPeopleWithExcludes people) \ planonKeys accounts

/-- Line 185: `updates = set(planon_accounts) & set(dart_people)`, where
`accounts2` is the target snapshot re-fetched after the Insert pass
(line 184) and `people` is the unfiltered roster. -/
def updates (accounts2 : List PlanonAccount) (people : List DartPerson) :
    Finset String :=
  planonKeys accounts2 ∩ dartKeys people

/-- Line 217: `deactivates = set(planon_accounts) - set(dart_people) -
set(account_sync_excludes)`. -/
def deactivates (accounts2 : List PlanonAccount) (people : List DartPerson)
    (excludes : List ExcludeEntry) : Finset String :=
  (planonKeys accounts2 \ dartKeys people) \ excludeKeys excludes

/-- The remote filter of line 245: `EndDate` absent and
`PasswordNeverExpires` equal to false. -/
def accountFilterPwd (a : PlanonAccount) : Bool :=
  a.EndDate.isNone && !a.PasswordNeverExpires

/-- `planon_accounts_with_pwd_expires` (line 246): accounts of the remote
table matching the password-expiry filter, keyed by lower-cased name. -/
def planonAccountsWithPwdExpires (table : List PlanonAccount) :
    List PlanonAccount :=
  table.filter accountFilterPwd

/-- Line 247: `pwd_expires = set(planon_accounts_with_pwd_expires)`. -/
def pwd_expires (table : List PlanonAccount) : Finset String :=
  planonKeys (planonAccountsWithPwdExpires table)

/-- Python dict lookup `dart_people[k]` for a dict built by comprehension
(later entries win, hence the reverse). -/
def dictFindPerson (people : List DartPerson) (k : String) :
    Option DartPerson :=
  people.reverse.find? (fun p => p.netid == k)

/-- Python dict lookup `planon_accounts[k]` (keys are lower-cased names). -/
def dictFindAccount (accounts : List PlanonAccount) (k : String) :
    Option PlanonAccount :=
  accounts.reverse.find? (fun a => pyLower a.Accountname == k)

/-- A raised Python failure: either a `requests` `HTTPError` or any other
exception; only its message text is inspected by the script. -/
inductive Failure where
  | httpError (msg : String)
  | runtimeError (msg : String)
deriving DecidableEq

/-- The three failure categories of the Insert pass buckets. -/
inductive FailCategory where
  | skipped
  | failed
  | failedToLinkPerson
deriving DecidableEq

/-- The Insert-pass exception handlers (lines 146-172): an `HTTPError` is
checked for "not unique" then "unpack"; any other exception is checked for
"unpack" only. -/
def classifyInsertFailure : Failure → FailCategory
  | .httpError msg =>
    if pyContains msg "not unique" then .skipped
    else if pyContains msg "unpack" then .failedToLinkPerson
    else .failed
  | .runtimeError msg =>
    if pyContains msg "unpack" then .failedToLinkPerson
    else .failed

/-- The Update-pass handler (lines 203-205): every failure goes to
`updates_failed`. -/
def classifyUpdateFailure : Failure → FailCategory := fun _ => .failed

/-- The Deactivate-pass handler (lines 231-233): every failure goes to
`deactivates_failed`. -/
def classifyDeactivateFailure : Failure → FailCategory := fun _ => .failed

/-- The Normalize-pass handler (lines 259-261): every failure goes to
`pwd_expire_failed`. -/
def classifyPwdExpireFailure : Failure → FailCategory := fun _ => .failed

/-- A Planon person record (`planon.UsrPerson`), with the fields the script
reads: `Syscode`, `Code`, and the cross-reference field `FreeString7`. -/
structure UsrPerson where
  Syscode : Nat
  Code : String
  FreeString7 : String
deriving DecidableEq

/-- The values passed to `planon.Account.create` (lines 107-114). -/
structure AccountCreateValues where
  Accountname : String
  Description : String
  BeginDate : String
  PasswordNeverExpires : Bool
deriving DecidableEq

/-- The values passed to `planon.AccountAccountGroup.create` (lines 120-125). -/
structure GroupLinkValues where
  AccountGroupRef : Nat
  AccountRef : Nat
deriving DecidableEq

/-- The values passed to `planon.AccountPerson.create` (line 140). -/
structure PersonLinkValues where
  PersonRef : Nat
  AccountRef : Nat
deriving DecidableEq

/-- `planon.UsrPerson.find({"filter": {"FreeString7": {"eq": k}}})`
(lines 131-137): persons whose cross-reference field equals the key. -/
def findPersonsByFreeString7 (persons : List UsrPerson) (k : String) :
    List UsrPerson :=
  persons.filter (fun q => q.FreeString7 == k)

/-- Python tuple unpacking `(x,) = l` (line 137): succeeds only on a
one-element list, otherwise raises a ValueError mentioning "unpack". -/
def unpackOne {α : Type} (l : List α) : Except String α :=
  match l with
  | [q] => .ok q
  | [] => .error "not enough values to unpack (expected 1, got 0)"
  | _ => .error "too many values to unpack (expected 1)"

/-- The remote effects of one Insert-pass iteration (lines 102-144):
which create calls were issued and whether a failure was raised. -/
structure InsertEffects where
  createdAccount : Option AccountCreateValues
  groupLink : Option GroupLinkValues
  personLink : Option PersonLinkValues
  outcome : Option Failure
deriving DecidableEq

/-- The Insert action for one key (try block, lines 102-144), assuming the
two create calls themselves succeed remotely: create the account, link the
requestor group, then unpack the person lookup and link the person; a lookup
returning zero or several matches raises the unpack error after the account
and group link were already created. -/
def insertAction (todayStr : String) (dart_person : DartPerson)
    (persons : List UsrPerson) (requestorSyscode acctSyscode : Nat) :
    InsertEffects :=
  let values : AccountCreateValues :=
    { Accountname := dart_person.netid
      Description := dart_person.name
      BeginDate := todayStr
      PasswordNeverExpires := true }
  let glink : GroupLinkValues :=
    { AccountGroupRef := requestorSyscode, AccountRef := acctSyscode }
  match unpackOne (findPersonsByFreeString7 persons dart_person.netid) with
  | .ok planon_person =>
    { createdAccount := some values
      groupLink := some glink
      personLink := some { PersonRef := planon_person.Syscode, AccountRef := acctSyscode }
      outcome := none }
  | .error msg =>
    { createdAccount := some values
      groupLink := some glink
      personLink := none
      outcome := some (.runtimeError msg) }

/-- The Update action for one key (lines 193-201): persist a new display
name only when it differs; the second component counts display-name
mutations (save calls). -/
def updateAction (srcName : String) (planon_account : PlanonAccount) :
    PlanonAccount × Nat :=
  if srcName != planon_account.Description then
    ({ planon_account with Description := srcName }, 1)
  else
    (planon_account, 0)

/-- One Update-pass iteration viewed as a transformation of the account
keyed by the account's (lower-cased) name. -/
def updatePassAccount (people : List DartPerson) (a : PlanonAccount) :
    PlanonAccount × Nat :=
  match dictFindPerson people (pyLower a.Accountname) with
  | some dart_person => updateAction dart_person.name a
  | none => (a, 0)

/-- The whole Update pass as a pure state transformation: the new account
table and the total number of display-name mutations performed. -/
def runUpdateMutations (people : List DartPerson)
    (accounts : List PlanonAccount) : List PlanonAccount × Nat :=
  ((accounts.map (fun a => (updatePassAccount people a).1)),
   (accounts.map (fun a => (updatePassAccount people a).2)).sum)

/-- The Deactivate action (line 225): set the end date to the run date. -/
def deactivateAction (todayStr : String) (planon_account : PlanonAccount) :
    PlanonAccount :=
  { planon_account with EndDate := some todayStr }

/-- The Normalize action (lines 252-255): set `PasswordNeverExpires` to
true; the second component is the account passed to the save call. -/
def pwdExpireAction (planon_account : PlanonAccount) :
    PlanonAccount × PlanonAccount :=
  ({ planon_account with PasswordNeverExpires := true },
   { planon_account with PasswordNeverExpires := true })

/-- The four Insert-pass outcome buckets (lines 91-94). -/
structure InsertBuckets where
  succeeded : List String
  skipped : List String
  failed : List String
  failed_to_link_person : List String
deriving DecidableEq

/-- How many times `k` was appended across the four Insert buckets. -/
def InsertBuckets.countKey (b : InsertBuckets) (k : String) : Nat :=
  b.succeeded.count k + b.skipped.count k + b.failed.count k
    + b.failed_to_link_person.count k

/-- One Insert-pass iteration's bucket appends (lines 99-172): `oracle`
says whether processing the key raised a failure; a raised failure is
routed by the except handlers, success appends to `inserts_succeeded`. -/
def insertStep (oracle : String → Option Failure) (b : InsertBuckets)
    (k : String) : InsertBuckets :=
  match oracle k with
  | none => { b with succeeded := b.succeeded ++ [k] }
  | some f =>
    match classifyInsertFailure f with
    | .skipped => { b with skipped := b.skipped ++ [k] }
    | .failedToLinkPerson =>
      { b with failed_to_link_person := b.failed_to_link_person ++ [k] }
    | .failed => { b with failed := b.failed ++ [k] }

/-- The Insert-pass loop over its key set (line 99). -/
def runInsertBuckets (oracle : String → Option Failure)
    (keys : List String) : InsertBuckets :=
  keys.foldl (insertStep oracle) ⟨[], [], [], []⟩

/-- A succeeded/failed bucket pair, as used by the Update, Deactivate and
Normalize passes. -/
structure TwoBuckets where
  succeeded : List String
  failed : List String
deriving DecidableEq

/-- How many times `k` was appended across the two buckets. -/
def TwoBuckets.countKey (b : TwoBuckets) (k : String) : Nat :=
  b.succeeded.count k + b.failed.count k

/-- One Update-pass iteration (lines 187-205): look up the person and the
account; if the names differ, save (a failing save appends to
`updates_failed`), else append nothing; a failed lookup raises and appends
to `updates_failed`. -/
def updateStep (people : List DartPerson) (accounts : List PlanonAccount)
    (saveFails : String → Option Failure) (b : TwoBuckets) (k : String) :
    TwoBuckets :=
  match dictFindPerson people k, dictFindAccount accounts k with
  | some dart_person, some planon_account =>
    if dart_person.name != planon_account.Description then
      match saveFails k with
      | some _ => { b with failed := b.failed ++ [k] }
      | none => { b with succeeded := b.succeeded ++ [k] }
    else b
  | _, _ => { b with failed := b.failed ++ [k] }

/-- The Update-pass loop over its key set (line 187). -/
def runUpdateBuckets (people : List DartPerson)
    (accounts : List PlanonAccount) (saveFails : String → Option Failure)
    (keys : List String) : TwoBuckets :=
  keys.foldl (updateStep people accounts saveFails) ⟨[], []⟩

/-- How many bucket appends one Update-pass iteration performs for a key:
zero exactly when both lookups succeed and the names already match. -/
def updateAppends (people : List DartPerson) (accounts : List PlanonAccount)
    (k : String) : Nat :=
  match dictFindPerson people k, dictFindAccount accounts k with
  | some dart_person, some planon_account =>
    if dart_person.name != planon_account.Description then 1 else 0
  | _, _ => 1

/-- One Deactivate-pass iteration (lines 220-233): look up the account,
set its end date and save; any raised failure appends to
`deactivates_failed`, success appends to `deactivates_succeeded`. -/
def deactivateStep (accounts : List PlanonAccount)
    (saveFails : String → Option Failure) (b : TwoBuckets) (k : String) :
    TwoBuckets :=
  match dictFindAccount accounts k with
  | some _ =>
    match saveFails k with
    | some _ => { b with failed := b.failed ++ [k] }
    | none => { b with succeeded := b.succeeded ++ [k] }
  | none => { b with failed := b.failed ++ [k] }

/-- The Deactivate-pass loop over its key set (line 220). -/
def runDeactivateBuckets (accounts : List PlanonAccount)
    (saveFails : String → Option Failure) (keys : List String) :
    TwoBuckets :=
  keys.foldl (deactivateStep accounts saveFails) ⟨[], []⟩

/-- One Normalize-pass iteration (lines 250-261): look up the account in
the `planon_accounts` dict, set the flag and save; any raised failure
(a missing key included) appends to `pwd_expire_failed`. -/
def pwdExpireStep (accounts : List PlanonAccount)
    (saveFails : String → Option Failure) (b : TwoBuckets) (k : String) :
    TwoBuckets :=
  match dictFindAccount accounts k with
  | some _ =>
    match saveFails k with
    | some _ => { b with failed := b.failed ++ [k] }
    | none => { b with succeeded := b.succeeded ++ [k] }
  | none => { b with failed := b.failed ++ [k] }

/-- The Normalize-pass loop over its key set (line 250). -/
def runPwdExpireBuckets (accounts : List PlanonAccount)
    (saveFails : String → Option Failure) (keys : List String) :
    TwoBuckets :=
  keys.foldl (pwdExpireStep accounts saveFails) ⟨[], []⟩

/-- All ten outcome buckets of one run. -/
structure RunBuckets where
  inserts_succeeded : List String
  inserts_skipped : List String
  inserts_failed : List String
  inserts_failed_to_link_person : List String
  updates_succeeded : List String
  updates_failed : List String
  deactivates_succeeded : List String
  deactivates_failed : List String
  pwd_expire_succeeded : List String
  pwd_expire_failed : List String
deriving DecidableEq

/-- The end-of-run RESULTS log block (lines 265-284), as the ordered list
of labelled counts it interpolates. -/
def resultsSummary (b : RunBuckets) : List (String × Nat) :=
  [("Inserts Succeeded", b.inserts_succeeded.length),
   ("Inserts Failed", b.inserts_failed.length),
   ("Updates Succeeded", b.updates_succeeded.length),
   ("Updates Failed", b.updates_failed.length),
   ("Deactivates Succeeded", b.deactivates_succeeded.length),
   ("Deactivates Failed", b.deactivates_failed.length),
   ("Pwd_expire Succeeded", b.pwd_expire_succeeded.length),
   ("Pwd_expire Failed", b.pwd_expire_failed.length),
   ("Inserts_failed_to_link_person", b.inserts_failed_to_link_person.length)]

/-- `os.EX_OK`. -/
def EX_OK : Nat := 0

/-- `os.EX_DATAERR`. -/
def EX_DATAERR : Nat := 65

/-- The exit-code policy (lines 290-311): data error if `inserts_skipped`
is nonempty, else data error if `inserts_failed_to_link_person` is
nonempty, else success. -/
def exitCode (b : RunBuckets) : Nat :=
  if !b.inserts_skipped.isEmpty then EX_DATAERR
  else if !b.inserts_failed_to_link_person.isEmpty then EX_DATAERR
  else EX_OK

/-- The per-key warning lines emitted before exiting (lines 298-299 and
305-306): one line per skipped key, or, when none were skipped, one line
per key that failed to link to a person. -/
def exitWarnings (b : RunBuckets) : List String :=
  if !b.inserts_skipped.isEmpty then
    b.inserts_skipped.map (fun k => "Skipped creating account: " ++ k)
  else if !b.inserts_failed_to_link_person.isEmpty then
    b.inserts_failed_to_link_person.map
      (fun k => "Failed to link person record for: " ++ k)
  else []

/-- Whether a string contains an (ASCII) uppercase letter. -/
def hasUpper (s : String) : Bool := s.data.any Char.isUpper

/-
Theorems.  Helper lemmas first, then one theorem per claim, with its
counterexample and witness theorems where applicable.
-/

theorem isUpper_toLower (c : Char) : (Char.toLower c).isUpper = false := by
  by_cases h : c.toNat ≥ 65 ∧ c.toNat ≤ 90
  · have hl : Char.toLower c = Char.ofNat (c.toNat + 32) := by
      unfold Char.toLower
      simp [h]
    rw [hl]
    obtain ⟨h1, h2⟩ := h
    have h3 : 97 ≤ c.toNat + 32 := by omega
    have h4 : c.toNat + 32 ≤ 122 := by omega
    generalize c.toNat + 32 = m at h3 h4
    interval_cases m <;> decide
  · have hl : Char.toLower c = c := by
      unfold Char.toLower
      simp [h]
    rw [hl]
    simp only [Char.isUpper, Char.toNat] at *
    simp only [Bool.and_eq_false_iff, decide_eq_false_iff_not]
    rcases not_and_or.mp h with h1 | h1
    · left
      intro hc
      exact h1 (by simpa [UInt32.le_def, BitVec.le_def, UInt32.toNat] using hc)
    · right
      intro hc
      exact h1 (by simpa [UInt32.le_def, BitVec.le_def, UInt32.toNat] using hc)

theorem hasUpper_pyLower (s : String) : hasUpper (pyLower s) = false := by
  simp only [hasUpper, pyLower, List.any_map, List.any_eq_false, Function.comp]
  intro c _
  simp [isUpper_toLower]

theorem mem_planonKeys_hasUpper (accounts : List PlanonAccount) (k : String)
    (hk : k ∈ planonKeys accounts) : hasUpper k = false := by
  simp only [planonKeys, List.mem_toFinset, List.mem_map] at hk
  obtain ⟨a, _, rfl⟩ := hk
  exact hasUpper_pyLower _

theorem countKey_insertStep (oracle : String → Option Failure)
    (b : InsertBuckets) (k' k : String) :
    (insertStep oracle b k').countKey k
      = b.countKey k + if k' = k then 1 else 0 := by
  unfold insertStep
  split
  · simp only [InsertBuckets.countKey, List.count_append, List.count_singleton']
    split <;> omega
  · split <;>
      (simp only [InsertBuckets.countKey, List.count_append,
        List.count_singleton']
       split <;> omega)

theorem countKey_runInsert_aux (oracle : String → Option Failure)
    (keys : List String) (b : InsertBuckets) (k : String) :
    (keys.foldl (insertStep oracle) b).countKey k
      = b.countKey k + keys.count k := by
  induction keys generalizing b with
  | nil => simp
  | cons k' keys ih =>
    rw [List.foldl_cons, ih, countKey_insertStep, List.count_cons]
    by_cases hk : k' = k
    · subst hk
      simp only [if_pos rfl, beq_self_eq_true, if_true]
      omega
    · have hb : (k' == k) = false := by simp [hk]
      simp [hk, hb]

theorem countKey_updateStep (people : List DartPerson)
    (accounts : List PlanonAccount) (saveFails : String → Option Failure)
    (b : TwoBuckets) (k' k : String) :
    (updateStep people accounts saveFails b k').countKey k
      = b.countKey k + if k' = k then updateAppends people accounts k' else 0 := by
  unfold updateStep updateAppends
  cases h1 : dictFindPerson people k' with
  | none =>
    simp only [TwoBuckets.countKey, List.count_append, List.count_singleton']
    split <;> omega
  | some p =>
    cases h2 : dictFindAccount accounts k' with
    | none =>
      simp only [TwoBuckets.countKey, List.count_append, List.count_singleton']
      split <;> omega
    | some a =>
      by_cases hd : (p.name != a.Description) = true <;>
        cases h3 : saveFails k' <;>
          simp [hd, TwoBuckets.countKey, List.count_append,
            List.count_singleton'] <;>
            split <;> omega

theorem countKey_runUpdate_aux (people : List DartPerson)
    (accounts : List PlanonAccount) (saveFails : String → Option Failure)
    (keys : List String) (b : TwoBuckets) (k : String) :
    (keys.foldl (updateStep people accounts saveFails) b).countKey k
      = b.countKey k + keys.count k * updateAppends people accounts k := by
  induction keys generalizing b with
  | nil => simp
  | cons k' keys ih =>
    rw [List.foldl_cons, ih, countKey_updateStep, List.count_cons]
    by_cases hk : k' = k
    · subst hk
      simp only [if_pos rfl, beq_self_eq_true, if_true]
      ring
    · have hb : (k' == k) = false := by simp [hk]
      simp [hk, hb]

theorem countKey_deactivateStep (accounts : List PlanonAccount)
    (saveFails : String → Option Failure) (b : TwoBuckets) (k' k : String) :
    (deactivateStep accounts saveFails b k').countKey k
      = b.countKey k + if k' = k then 1 else 0 := by
  unfold deactivateStep
  cases h1 : dictFindAccount accounts k' with
  | none =>
    simp only [TwoBuckets.countKey, List.count_append, List.count_singleton']
    split <;> omega
  | some a =>
    cases h3 : saveFails k' <;>
      simp [TwoBuckets.countKey, List.count_append, List.count_singleton'] <;>
        split <;> omega

theorem countKey_runDeactivate_aux (accounts : List PlanonAccount)
    (saveFails : String → Option Failure) (keys : List String)
    (b : TwoBuckets) (k : String) :
    (keys.foldl (deactivateStep accounts saveFails) b).countKey k
      = b.countKey k + keys.count k := by
  induction keys generalizing b with
  | nil => simp
  | cons k' keys ih =>
    rw [List.foldl_cons, ih, countKey_deactivateStep, List.count_cons]
    by_cases hk : k' = k
    · subst hk
      simp only [if_pos rfl, beq_self_eq_true, if_true]
      omega
    · have hb : (k' == k) = false := by simp [hk]
      simp [hk, hb]

theorem countKey_pwdExpireStep (accounts : List PlanonAccount)
    (saveFails : String → Option Failure) (b : TwoBuckets) (k' k : String) :
    (pwdExpireStep accounts saveFails b k').countKey k
      = b.countKey k + if k' = k then 1 else 0 := by
  unfold pwdExpireStep
  cases h1 : dictFindAccount accounts k' with
  | none =>
    simp only [TwoBuckets.countKey, List.count_append, List.count_singleton']
    split <;> omega
  | some a =>
    cases h3 : saveFails k' <;>
      simp [TwoBuckets.countKey, List.count_append, List.count_singleton'] <;>
        split <;> omega

theorem countKey_runPwdExpire_aux (accounts : List PlanonAccount)
    (saveFails : String → Option Failure) (keys : List String)
    (b : TwoBuckets) (k : String) :
    (keys.foldl (pwdExpireStep accounts saveFails) b).countKey k
      = b.countKey k + keys.count k := by
  induction keys generalizing b with
  | nil => simp
  | cons k' keys ih =>
    rw [List.foldl_cons, ih, countKey_pwdExpireStep, List.count_cons]
    by_cases hk : k' = k
    · subst hk
      simp only [if_pos rfl, beq_self_eq_true, if_true]
      omega
    · have hb : (k' == k) = false := by simp [hk]
      simp [hk, hb]

theorem updatePassAccount_idem (people : List DartPerson) (a : PlanonAccount) :
    updatePassAccount people ((updatePassAccount people a).1)
      = ((updatePassAccount people a).1, 0) := by
  unfold updatePassAccount updateAction
  cases h : dictFindPerson people (pyLower a.Accountname) with
  | none => simp [h]
  | some p =>
    by_cases hd : p.name = a.Description
    · simp [h, hd]
    · simp [h, hd]

/-- Claim C1: the exit status is the distinct nonzero "data error" code 65
iff the Insert pass produced a `skipped` or a `failed_to_link_person`
outcome, with `skipped` checked first and one warning line emitted per
affected key; otherwise the status is 0; the generic succeeded/failed
buckets of all passes never change the exit code. -/
theorem c1_exit_policy (b : RunBuckets) :
    (exitCode b = EX_DATAERR ↔
      (b.inserts_skipped ≠ [] ∨ b.inserts_failed_to_link_person ≠ []))
    ∧ (exitCode b = EX_OK ↔
      (b.inserts_skipped = [] ∧ b.inserts_failed_to_link_person = []))
    ∧ EX_DATAERR ≠ EX_OK
    ∧ (b.inserts_skipped ≠ [] →
        exitWarnings b
          = b.inserts_skipped.map (fun k => "Skipped creating account: " ++ k)
        ∧ (exitWarnings b).length = b.inserts_skipped.length)
    ∧ (b.inserts_skipped = [] → b.inserts_failed_to_link_person ≠ [] →
        (exitWarnings b).length = b.inserts_failed_to_link_person.length)
    ∧ (∀ l1 l2 l3 l4 l5 l6 l7 l8,
        exitCode { b with inserts_succeeded := l1, inserts_failed := l2,
                          updates_succeeded := l3, updates_failed := l4,
                          deactivates_succeeded := l5, deactivates_failed := l6,
                          pwd_expire_succeeded := l7, pwd_expire_failed := l8 }
          = exitCode b) := by
  by_cases h1 : b.inserts_skipped = [] <;>
    by_cases h2 : b.inserts_failed_to_link_person = [] <;>
      simp [exitCode, exitWarnings, EX_OK, EX_DATAERR, h1, h2]

/-- Claim C1 witness: a run with one skipped insert exits with code 65. -/
theorem c1_exit_policy_witness :
    exitCode ⟨[], ["d1"], [], [], [], [], [], [], [], []⟩ = EX_DATAERR
    ∧ (exitWarnings ⟨[], ["d1"], [], [], [], [], [], [], [], []⟩).length = 1 := by
  have h := c1_exit_policy ⟨[], ["d1"], [], [], [], [], [], [], [], []⟩
  exact ⟨h.1.mpr (Or.inl (by decide)), (h.2.2.2.1 (by decide)).2⟩

/-- Claim C2 counterexample: a generic runtime failure whose message
contains "not unique" (the remote system's actual wording) is classified
`failed` by the Insert pass, not `skipped`; and the Update pass classifies
even an HTTP failure with that message as `failed`. -/
theorem c2_counterexample :
    pyContains "The User name field with value D36616B on Users is not unique." "not unique" = true
    ∧ classifyInsertFailure (.runtimeError "The User name field with value D36616B on Users is not unique.") = .failed
    ∧ classifyUpdateFailure (.httpError "The User name field with value D36616B on Users is not unique.") = .failed
    ∧ FailCategory.failed ≠ FailCategory.skipped := by
  exact ⟨by decide, by decide, rfl, by decide⟩

/-- Claim C2 (amended): the "not unique" then "unpack" marker chain is
checked only for HTTP errors in the Insert pass; a generic runtime failure
there is checked for "unpack" only, so one containing "not unique" without
"unpack" is classified `failed`; the other three passes classify every
failure as `failed`. -/
theorem c2_classifier (msg : String) :
    (pyContains msg "not unique" = true →
      classifyInsertFailure (.httpError msg) = .skipped)
    ∧ (pyContains msg "not unique" = false → pyContains msg "unpack" = true →
      classifyInsertFailure (.httpError msg) = .failedToLinkPerson)
    ∧ (pyContains msg "not unique" = false → pyContains msg "unpack" = false →
      classifyInsertFailure (.httpError msg) = .failed)
    ∧ (pyContains msg "unpack" = true →
      classifyInsertFailure (.runtimeError msg) = .failedToLinkPerson)
    ∧ (pyContains msg "unpack" = false →
      classifyInsertFailure (.runtimeError msg) = .failed)
    ∧ (∀ f, classifyUpdateFailure f = .failed)
    ∧ (∀ f, classifyDeactivateFailure f = .failed)
    ∧ (∀ f, classifyPwdExpireFailure f = .failed) := by
  refine ⟨fun h1 => ?_, fun h1 h2 => ?_, fun h1 h2 => ?_, fun h2 => ?_,
    fun h2 => ?_, fun _ => rfl, fun _ => rfl, fun _ => rfl⟩ <;>
    simp [classifyInsertFailure, *]

/-- Claim C2 witness: the same "not unique" message is `skipped` as an
HTTP error but `failed` as a runtime error. -/
theorem c2_classifier_witness :
    classifyInsertFailure (.httpError "value X is not unique.") = .skipped
    ∧ classifyInsertFailure (.runtimeError "value X is not unique.") = .failed :=
  ⟨(c2_classifier "value X is not unique.").1 (by decide),
   (c2_classifier "value X is not unique.").2.2.2.2.1 (by decide)⟩

/-- Claim C3: membership in `inserts` is membership in the filtered
eligible roster (non-person and service entries removed) minus the target
snapshot's lower-cased keys, and membership in `updates` is membership in
the re-fetched target snapshot's keys intersected with the unfiltered
roster's keys. -/
theorem c3_inserts_updates (people : List DartPerson)
    (accounts accounts2 : List PlanonAccount) (k : String) :
    (k ∈ inserts people accounts ↔
      ((∃ p ∈ people, p.netid = k ∧ keepPerson p = true)
        ∧ ¬ ∃ a ∈ accounts, pyLower a.Accountname = k))
    ∧ (k ∈ updates accounts2 people ↔
      ((∃ a ∈ accounts2, pyLower a.Accountname = k)
        ∧ ∃ p ∈ people, p.netid = k)) := by
  constructor
  · simp only [inserts, dartKeys, planonKeys, dartPeopleWithExcludes,
      Finset.mem_sdiff, List.mem_toFinset, List.mem_map, List.mem_filter]
    tauto
  · simp only [updates, dartKeys, planonKeys, Finset.mem_inter,
      List.mem_toFinset, List.mem_map]

/-- Claim C4: membership in `deactivates` is the target snapshot's keys
minus the unfiltered roster's keys minus the exclusion registry's keys, so
an excluded key is never deactivated. -/
theorem c4_deactivates (accounts2 : List PlanonAccount)
    (people : List DartPerson) (excludes : List ExcludeEntry) (k : String) :
    (k ∈ deactivates accounts2 people excludes ↔
      (k ∈ planonKeys accounts2 ∧ k ∉ dartKeys people
        ∧ k ∉ excludeKeys excludes))
    ∧ (k ∈ excludeKeys excludes →
        k ∉ deactivates accounts2 people excludes) := by
  constructor
  · simp only [deactivates, Finset.mem_sdiff]
    tauto
  · intro hk hd
    simp only [deactivates, Finset.mem_sdiff] at hd
    exact hd.2 hk

/-- Claim C4 witness: an active target account "svc" absent from the
roster is still not deactivated because "svc" is excluded. -/
theorem c4_deactivates_witness :
    "svc" ∉ deactivates [⟨"SVC", "x", none, none, true, 1⟩] [] [⟨"svc"⟩]
    ∧ "svc" ∈ planonKeys [⟨"SVC", "x", none, none, true, 1⟩] :=
  ⟨(c4_deactivates [⟨"SVC", "x", none, none, true, 1⟩] [] [⟨"svc"⟩] "svc").2
    (by decide), by decide⟩

/-- Claim C8: `pwd_expires` is exactly the lower-cased keys of target
accounts with no end date and a false password-never-expires flag, and the
Normalize action sets the flag to true, changes nothing else, and passes
the modified account to the save call. -/
theorem c8_pwd_expires (table : List PlanonAccount) (k : String)
    (a : PlanonAccount) :
    (k ∈ pwd_expires table ↔
      ∃ x ∈ table, pyLower x.Accountname = k
        ∧ x.EndDate = none ∧ x.PasswordNeverExpires = false)
    ∧ (pwdExpireAction a).1.PasswordNeverExpires = true
    ∧ (pwdExpireAction a).2 = (pwdExpireAction a).1
    ∧ (pwdExpireAction a).1.Accountname = a.Accountname
    ∧ (pwdExpireAction a).1.Description = a.Description
    ∧ (pwdExpireAction a).1.EndDate = a.EndDate := by
  refine ⟨?_, rfl, rfl, rfl, rfl, rfl⟩
  simp only [pwd_expires, planonKeys, planonAccountsWithPwdExpires,
    accountFilterPwd, List.mem_toFinset, List.mem_map, List.mem_filter,
    Bool.and_eq_true, Bool.not_eq_true', Option.isNone_iff_eq_none]
  tauto

/-- Claim C9 counterexample: two runs differing only in the
`inserts_skipped` bucket produce identical summary reports, so the summary
does not contain a count for every outcome bucket. -/
theorem c9_counterexample :
    resultsSummary ⟨[], [], [], [], [], [], [], [], [], []⟩
      = resultsSummary ⟨[], ["d1"], [], [], [], [], [], [], [], []⟩
    ∧ (⟨[], [], [], [], [], [], [], [], [], []⟩ : RunBuckets).inserts_skipped
      ≠ (⟨[], ["d1"], [], [], [], [], [], [], [], []⟩ : RunBuckets).inserts_skipped := by
  exact ⟨rfl, by decide⟩

/-- Claim C9 (amended): the single end-of-run summary reports per-pass
succeeded and failed counts plus `inserts_failed_to_link_person`, but it
omits `inserts_skipped`: the report is invariant under changes to that
bucket. -/
theorem c9_summary (b : RunBuckets) (l : List String) :
    (resultsSummary b).map Prod.snd
      = [b.inserts_succeeded.length, b.inserts_failed.length,
         b.updates_succeeded.length, b.updates_failed.length,
         b.deactivates_succeeded.length, b.deactivates_failed.length,
         b.pwd_expire_succeeded.length, b.pwd_expire_failed.length,
         b.inserts_failed_to_link_person.length]
    ∧ resultsSummary { b with inserts_skipped := l } = resultsSummary b :=
  ⟨rfl, rfl⟩

/-- Claim C5 counterexample: the key "b" is in the Update pass's key set
and is processed (it occurs once in the iterated list), yet it is appended
to zero outcome buckets because its source and target display names
already match and no failure is raised. -/
theorem c5_counterexample :
    "b" ∈ updates [⟨"b", "Bob", none, none, true, 1⟩] [⟨"b", "x", "EMP", "Bob"⟩]
    ∧ (["b"] : List String).count "b" = 1
    ∧ runUpdateBuckets [⟨"b", "x", "EMP", "Bob"⟩]
        [⟨"b", "Bob", none, none, true, 1⟩] (fun _ => none) ["b"]
        = ⟨[], []⟩
    ∧ (runUpdateBuckets [⟨"b", "x", "EMP", "Bob"⟩]
        [⟨"b", "Bob", none, none, true, 1⟩] (fun _ => none) ["b"]).countKey "b"
        = 0 := by
  exact ⟨by decide, by decide, by decide, by decide⟩

/-- Claim C5 (amended): every processed key is appended to exactly one
outcome bucket per occurrence in the Insert, Deactivate and Normalize
passes; in the Update pass it is appended to exactly one bucket unless
both lookups succeed and the display names already match, in which case it
is appended to zero buckets. -/
theorem c5_bucket_appends (people : List DartPerson)
    (accounts : List PlanonAccount)
    (oracle saveFails : String → Option Failure) (keys : List String)
    (k : String) :
    (runInsertBuckets oracle keys).countKey k = keys.count k
    ∧ (runUpdateBuckets people accounts saveFails keys).countKey k
        = keys.count k * updateAppends people accounts k
    ∧ (updateAppends people accounts k = 0 ↔
        ∃ p a, dictFindPerson people k = some p
          ∧ dictFindAccount accounts k = some a ∧ p.name = a.Description)
    ∧ (runDeactivateBuckets accounts saveFails keys).countKey k
        = keys.count k
    ∧ (runPwdExpireBuckets accounts saveFails keys).countKey k
        = keys.count k := by
  refine ⟨?_, ?_, ?_, ?_, ?_⟩
  · rw [runInsertBuckets, countKey_runInsert_aux]
    simp [InsertBuckets.countKey]
  · rw [runUpdateBuckets, countKey_runUpdate_aux]
    simp [TwoBuckets.countKey]
  · unfold updateAppends
    cases h1 : dictFindPerson people k with
    | none => simp
    | some p =>
      cases h2 : dictFindAccount accounts k with
      | none => simp
      | some a =>
        by_cases hd : p.name = a.Description
        · simp [hd]
        · simp [hd]
  · rw [runDeactivateBuckets, countKey_runDeactivate_aux]
    simp [TwoBuckets.countKey]
  · rw [runPwdExpireBuckets, countKey_runPwdExpire_aux]
    simp [TwoBuckets.countKey]

/-- Claim C6: the Update action persists only when the source display name
differs from the account's, performs no mutation when they are equal, and
running the whole Update pass a second time with unchanged source data
performs zero display-name mutations. -/
theorem c6_update_idempotent (people : List DartPerson)
    (accounts : List PlanonAccount) (srcName : String) (a : PlanonAccount) :
    (srcName = a.Description → updateAction srcName a = (a, 0))
    ∧ (srcName ≠ a.Description →
        updateAction srcName a = ({ a with Description := srcName }, 1))
    ∧ (runUpdateMutations people (runUpdateMutations people accounts).1).2
        = 0 := by
  refine ⟨fun h => by simp [updateAction, h], fun h => ?_, ?_⟩
  · have hb : (srcName != a.Description) = true := by
      simpa using h
    simp [updateAction, hb]
  · unfold runUpdateMutations
    simp only [List.map_map]
    apply List.sum_eq_zero
    intro x hx
    simp only [List.mem_map, Function.comp] at hx
    obtain ⟨a', _, rfl⟩ := hx
    rw [updatePassAccount_idem]

/-- Claim C6 witness: an equal name performs no mutation, and a second run
of the Update pass after a real name change performs zero mutations. -/
theorem c6_update_idempotent_witness :
    updateAction "Bob" ⟨"b", "Bob", none, none, true, 1⟩
      = (⟨"b", "Bob", none, none, true, 1⟩, 0)
    ∧ (runUpdateMutations [⟨"b", "x", "EMP", "Robert"⟩]
        (runUpdateMutations [⟨"b", "x", "EMP", "Robert"⟩]
          [⟨"b", "Bob", none, none, true, 1⟩]).1).2 = 0 :=
  ⟨(c6_update_idempotent [] [] "Bob" ⟨"b", "Bob", none, none, true, 1⟩).1 rfl,
   (c6_update_idempotent [⟨"b", "x", "EMP", "Robert"⟩]
     [⟨"b", "Bob", none, none, true, 1⟩] "Bob"
     ⟨"b", "Bob", none, none, true, 1⟩).2.2⟩

/-- Claim C7: for a key in the Insert set, the looked-up source person has
that key as netid; the Insert action creates the account with that key,
the source display name, begin-date equal to the run date and
password-never-expires true, links it to the fixed requestor group, looks
up persons by the cross-reference field equal to the key, and creates the
person link only when the lookup has exactly one match; on zero or several
matches it raises an unpack failure classified `failed_to_link_person`
while the account remains created and unlinked. -/
theorem c7_insert_action (people : List DartPerson)
    (accounts : List PlanonAccount) (persons : List UsrPerson)
    (todayStr : String) (requestorSyscode acctSyscode : Nat) (k : String)
    (hk : k ∈ inserts people accounts) :
    ∃ dart_person,
      dictFindPerson (dartPeopleWithExcludes people) k = some dart_person
      ∧ dart_person.netid = k
      ∧ (∀ q ∈ findPersonsByFreeString7 persons k, q.FreeString7 = k)
      ∧ (insertAction todayStr dart_person persons requestorSyscode
          acctSyscode).createdAccount
          = some { Accountname := k, Description := dart_person.name,
                   BeginDate := todayStr, PasswordNeverExpires := true }
      ∧ (insertAction todayStr dart_person persons requestorSyscode
          acctSyscode).groupLink
          = some { AccountGroupRef := requestorSyscode,
                   AccountRef := acctSyscode }
      ∧ (∀ q, findPersonsByFreeString7 persons k = [q] →
          (insertAction todayStr dart_person persons requestorSyscode
            acctSyscode).personLink
            = some { PersonRef := q.Syscode, AccountRef := acctSyscode }
          ∧ (insertAction todayStr dart_person persons requestorSyscode
              acctSyscode).outcome = none)
      ∧ ((¬ ∃ q, findPersonsByFreeString7 persons k = [q]) →
          (insertAction todayStr dart_person persons requestorSyscode
            acctSyscode).personLink = none
          ∧ (insertAction todayStr dart_person persons requestorSyscode
              acctSyscode).createdAccount ≠ none
          ∧ ∃ msg,
              (insertAction todayStr dart_person persons requestorSyscode
                acctSyscode).outcome = some (.runtimeError msg)
              ∧ classifyInsertFailure (.runtimeError msg)
                  = .failedToLinkPerson) := by
  have h1 : k ∈ dartKeys (dartPeopleWithExcludes people) :=
    (Finset.mem_sdiff.mp hk).1
  obtain ⟨p, hp, hpk⟩ : ∃ p ∈ dartPeopleWithExcludes people, p.netid = k := by
    simpa [dartKeys, List.mem_toFinset, List.mem_map] using h1
  have h2 : ((dartPeopleWithExcludes people).reverse.find?
      (fun q => q.netid == k)).isSome := by
    apply List.find?_isSome.mpr
    exact ⟨p, List.mem_reverse.mpr hp, by simp [hpk]⟩
  obtain ⟨dp, hdp⟩ := Option.isSome_iff_exists.mp h2
  have hdpk : dp.netid = k := by
    have := List.find?_some hdp
    simpa using this
  refine ⟨dp, hdp, hdpk, ?_, ?_, ?_, ?_, ?_⟩
  · intro q hq
    have := List.mem_filter.mp hq
    simpa using this.2
  · unfold insertAction
    rw [hdpk]
    cases hu : unpackOne (findPersonsByFreeString7 persons k) <;> simp
  · unfold insertAction
    rw [hdpk]
    cases hu : unpackOne (findPersonsByFreeString7 persons k) <;> simp
  · intro q hq
    unfold insertAction
    rw [hdpk, hq]
    simp [unpackOne]
  · intro hne
    unfold insertAction
    rw [hdpk]
    cases hl : findPersonsByFreeString7 persons k with
    | nil =>
      refine ⟨by simp [unpackOne], by simp [unpackOne], ?_⟩
      exact ⟨"not enough values to unpack (expected 1, got 0)",
        by simp [unpackOne], by decide⟩
    | cons q t =>
      cases t with
      | nil => exact absurd ⟨q, hl⟩ hne
      | cons q' t' =>
        refine ⟨by simp [unpackOne], by simp [unpackOne], ?_⟩
        exact ⟨"too many values to unpack (expected 1)",
          by simp [unpackOne], by decide⟩

/-- Claim C7 witness: the theorem applied to a one-person roster, an empty
target and an empty person table (so the lookup has zero matches). -/
theorem c7_insert_action_witness :
    ∃ dart_person,
      dictFindPerson (dartPeopleWithExcludes [⟨"a", "f", "EMP", "Alice"⟩])
        "a" = some dart_person
      ∧ dart_person.netid = "a"
      ∧ (∀ q ∈ findPersonsByFreeString7 [] "a", q.FreeString7 = "a")
      ∧ (insertAction "2026-10-12" dart_person [] 7 9).createdAccount
          = some { Accountname := "a", Description := dart_person.name,
                   BeginDate := "2026-10-12", PasswordNeverExpires := true }
      ∧ (insertAction "2026-10-12" dart_person [] 7 9).groupLink
          = some { AccountGroupRef := 7, AccountRef := 9 }
      ∧ (∀ q, findPersonsByFreeString7 [] "a" = [q] →
          (insertAction "2026-10-12" dart_person [] 7 9).personLink
            = some { PersonRef := q.Syscode, AccountRef := 9 }
          ∧ (insertAction "2026-10-12" dart_person [] 7 9).outcome = none)
      ∧ ((¬ ∃ q, findPersonsByFreeString7 [] "a" = [q]) →
          (insertAction "2026-10-12" dart_person [] 7 9).personLink = none
          ∧ (insertAction "2026-10-12" dart_person [] 7 9).createdAccount
              ≠ none
          ∧ ∃ msg,
              (insertAction "2026-10-12" dart_person [] 7 9).outcome
                = some (.runtimeError msg)
              ∧ classifyInsertFailure (.runtimeError msg)
                  = .failedToLinkPerson) :=
  c7_insert_action [⟨"a", "f", "EMP", "Alice"⟩] [] [] "2026-10-12" 7 9 "a"
    (by decide)

/-- Claim C10 counterexample: a source person with the uppercase netid
"AB123" whose first name is "nonperson", while a target account named
"AB123" (key "ab123") exists: the netid is not placed in the Insert set,
contradicting the claim's "for every source person". -/
theorem c10_counterexample :
    hasUpper "AB123" = true
    ∧ "AB123" ∈ dartKeys [⟨"AB123", "nonperson", "EMP", "Svc"⟩]
    ∧ pyLower "AB123" ∈ planonKeys [⟨"AB123", "Svc", none, none, true, 1⟩]
    ∧ "AB123" ∉ inserts [⟨"AB123", "nonperson", "EMP", "Svc"⟩]
        [⟨"AB123", "Svc", none, none, true, 1⟩]
    ∧ "AB123" ∉ updates [⟨"AB123", "Svc", none, none, true, 1⟩]
        [⟨"AB123", "nonperson", "EMP", "Svc"⟩] := by
  exact ⟨by decide, by decide, by decide, by decide, by decide⟩

/-- Claim C10 (amended): target keys are lower-cased while source netids
and exclusion keys are used verbatim, so a netid containing an uppercase
letter is never in the Update set; if its owner moreover survives the
eligibility filter it always lands in the Insert set, even when a target
account differing only by case exists; and an exclusion entry whose
account name contains an uppercase letter never removes anything from the
Deactivate set. -/
theorem c10_case_normalization (people : List DartPerson)
    (accounts accounts2 : List PlanonAccount) (excludes : List ExcludeEntry)
    (p : DartPerson) (e : ExcludeEntry) :
    (hasUpper p.netid = true → p.netid ∉ updates accounts2 people)
    ∧ (p ∈ people → keepPerson p = true → hasUpper p.netid = true →
        p.netid ∈ inserts people accounts)
    ∧ (hasUpper e.account_name = true →
        deactivates accounts2 people (e :: excludes)
          = deactivates accounts2 people excludes) := by
  refine ⟨?_, ?_, ?_⟩
  · intro h hin
    have := mem_planonKeys_hasUpper accounts2 p.netid
      (Finset.mem_inter.mp hin).1
    rw [h] at this
    cases this
  · intro hp hkeep hu
    rw [inserts, Finset.mem_sdiff]
    constructor
    · simp only [dartKeys, dartPeopleWithExcludes, List.mem_toFinset,
        List.mem_map]
      exact ⟨p, List.mem_filter.mpr ⟨hp, hkeep⟩, rfl⟩
    · intro hmem
      have := mem_planonKeys_hasUpper accounts p.netid hmem
      rw [hu] at this
      cases this
  · intro h
    ext k
    simp only [deactivates, Finset.mem_sdiff, excludeKeys, List.map_cons,
      List.toFinset_cons, Finset.mem_insert]
    constructor
    · rintro ⟨h1, h2⟩
      exact ⟨h1, fun hm => h2 (Or.inr hm)⟩
    · rintro ⟨h1, h2⟩
      refine ⟨h1, ?_⟩
      rintro (rfl | hm)
      · have := mem_planonKeys_hasUpper accounts2 _ h1.1
        rw [h] at this
        exact absurd this (by decide)
      · exact h2 hm

/-- Claim C10 witness: "Ab1" (uppercase letter, eligible person) is in the
Insert set and not in the Update set although the target has an account
named "Ab1"; an exclusion entry "XX" removes nothing from the Deactivate
set. -/
theorem c10_case_normalization_witness :
    "Ab1" ∉ updates [⟨"Ab1", "x", none, none, true, 1⟩]
      [⟨"Ab1", "f", "EMP", "A"⟩]
    ∧ "Ab1" ∈ inserts [⟨"Ab1", "f", "EMP", "A"⟩]
      [⟨"Ab1", "x", none, none, true, 1⟩]
    ∧ deactivates [⟨"Ab1", "x", none, none, true, 1⟩] [] [⟨"XX"⟩, ⟨"yy"⟩]
        = deactivates [⟨"Ab1", "x", none, none, true, 1⟩] [] [⟨"yy"⟩] :=
  ⟨(c10_case_normalization [⟨"Ab1", "f", "EMP", "A"⟩]
      [⟨"Ab1", "x", none, none, true, 1⟩]
      [⟨"Ab1", "x", none, none, true, 1⟩] [⟨"yy"⟩]
      ⟨"Ab1", "f", "EMP", "A"⟩ ⟨"XX"⟩).1 (by decide),
   (c10_case_normalization [⟨"Ab1", "f", "EMP", "A"⟩]
      [⟨"Ab1", "x", none, none, true, 1⟩]
      [⟨"Ab1", "x", none, none, true, 1⟩] [⟨"yy"⟩]
      ⟨"Ab1", "f", "EMP", "A"⟩ ⟨"XX"⟩).2.1 (by decide) (by decide)
      (by decide),
   (c10_case_normalization [⟨"Ab1", "f", "EMP", "A"⟩]
      [⟨"Ab1", "x", none, none, true, 1⟩]
      [⟨"Ab1", "x", none, none, true, 1⟩] [⟨"yy"⟩]
      ⟨"Ab1", "f", "EMP", "A"⟩ ⟨"XX"⟩).2.2 (by decide)⟩

end AccountSync
